import Mathlib

/-!
Shallow embedding of the xvault security core and verification of its
specification claims.

The embedding translates the TypeScript sources
`src/entrypoints/popup/utils/enhancedSecurity.ts`,
`src/entrypoints/popup/utils/securityUtils.ts` (encrypted-storage half),
`src/entrypoints/popup/utils/dbStorage.ts` (crypto half) and the popup
`App` component into pure Lean functions.  Browser storage is modelled as
an explicit record of optional slots; time (`Date.now()`) is an explicit
`Nat` parameter (milliseconds); external cryptographic primitives
(SHA-256, SHA-512, PBKDF2, AES-GCM, UTF-8 encoding, base64) are fields of
a `CryptoEnv` parameter, since the repository consumes them from the Web
Crypto API rather than implementing them.
-/

namespace XVault

/-- Stored credential record (`StoredPasswordInfo` in `App.tsx`). -/
structure StoredPasswordInfo where
  hash : String
  salt : String
deriving Repr, DecidableEq

/-- Model of `EnhancedIntegrityData` from `enhancedSecurity.ts`. -/
structure EnhancedIntegrityData where
  primaryHash : String
  secondaryHash : String
  timestamp : Nat
  deviceId : String
  version : Nat
deriving Repr, DecidableEq

/-- Model of `SecurityMetadata` from `enhancedSecurity.ts`. -/
structure SecurityMetadata where
  checksum : String
  lastVerified : Nat
  securityVersion : Nat
  bootCount : Nat
deriving Repr, DecidableEq

/-- Model of `EnhancedAuthChallenge` from `enhancedSecurity.ts`. -/
structure EnhancedAuthChallenge where
  challenge : String
  response : String
  timestamp : Nat
  nonce : String
deriving Repr, DecidableEq

/-- Model of `EnhancedFailedLoginAttempts` from `enhancedSecurity.ts`. -/
structure EnhancedFailedLoginAttempts where
  count : Nat
  lastAttempt : Nat
  lockedUntil : Option Nat
  attemptHistory : List Nat
deriving Repr, DecidableEq

/-- Model of `TextSnippet` from `App.tsx`. -/
structure TextSnippet where
  id : String
  text : String
  title : Option String
deriving Repr, DecidableEq

/-- Model of `Folder` from `App.tsx`. -/
structure Folder where
  id : String
  name : String
  snippets : List TextSnippet
deriving Repr, DecidableEq

/-- The `local:folders` slot holds either a plaintext folder array or an
encrypted base64 blob string. -/
inductive FoldersVal where
  | plain (folders : List Folder)
  | enc (blob : String)
deriving Repr, DecidableEq

/-- The browser storage state: one optional slot per storage key used by the
security core (IndexedDB-backed `storageCompat` keys plus the two
`localStorage` fallbacks and the `device_id` localStorage entry). -/
structure Store where
  passwordInfo : Option StoredPasswordInfo
  integrity : Option EnhancedIntegrityData
  integrityBackup : Option EnhancedIntegrityData
  securityMetadata : Option SecurityMetadata
  failedAttempts : Option EnhancedFailedLoginAttempts
  failedAttemptsBackup : Option EnhancedFailedLoginAttempts
  sessionAuth : Option Bool
  sessionChallenge : Option EnhancedAuthChallenge
  folders : Option FoldersVal
  encryptionEnabled : Option Bool
  deviceId : Option String
  metadataBackup : Option (String × Nat)
  lockoutBackup : Option Nat
deriving Repr, DecidableEq

/-- A store with every slot empty. -/
def emptyStore : Store :=
  ⟨none, none, none, none, none, none, none, none, none, none, none, none, none⟩

/-- External primitives consumed from the browser (Web Crypto, TextEncoder,
btoa/atob, crypto.randomUUID).  Bytes are modelled as `List Nat`. -/
structure CryptoEnv where
  sha256 : List Nat → String
  sha512 : List Nat → String
  utf8encode : String → List Nat
  utf8decode : List Nat → String
  b64encode : List Nat → String
  b64decode : String → List Nat
  pbkdf2 : List Nat → List Nat → List Nat
  pbkdf2hex : String → List Nat → String
  aesEncrypt : List Nat → List Nat → List Nat → Option (List Nat)
  aesDecrypt : List Nat → List Nat → List Nat → Option (List Nat)
  freshUUID : String

/-! ### Decimal representation of numbers

`JSON.stringify` prints numeric fields in decimal.  We use a fuel-based
digit expansion so that every serialization evaluates by kernel reduction,
and prove it injective (needed for the boot-checksum claim). -/

/-- Value of a least-significant-first digit list. -/
def ofDigitsRev : List Nat → Nat
  | [] => 0
  | d :: ds => d + 10 * ofDigitsRev ds

/-- Decimal digits of `n`, least significant first, with explicit fuel. -/
def natDigitsRev : Nat → Nat → List Nat
  | 0, _ => []
  | _ + 1, 0 => []
  | fuel + 1, n + 1 => ((n + 1) % 10) :: natDigitsRev fuel ((n + 1) / 10)

/-- Decimal string of a natural number, as `JSON.stringify` prints it. -/
def decRepr (n : Nat) : String :=
  if n = 0 then "0" else ⟨((natDigitsRev n n).map Nat.digitChar).reverse⟩

theorem natDigitsRev_spec :
    ∀ fuel n, n ≤ fuel → ofDigitsRev (natDigitsRev fuel n) = n := by
  intro fuel
  induction fuel with
  | zero =>
    intro n hn
    interval_cases n
    rfl
  | succ fuel ih =>
    intro n hn
    cases n with
    | zero => rfl
    | succ m =>
      have hdiv : (m + 1) / 10 ≤ fuel := by omega
      have := ih ((m + 1) / 10) hdiv
      simp only [natDigitsRev, ofDigitsRev, this]
      omega

theorem natDigitsRev_lt_ten :
    ∀ fuel n d, d ∈ natDigitsRev fuel n → d < 10 := by
  intro fuel
  induction fuel with
  | zero =>
    intro n d hd
    simp [natDigitsRev] at hd
  | succ fuel ih =>
    intro n d hd
    cases n with
    | zero => simp [natDigitsRev] at hd
    | succ m =>
      simp only [natDigitsRev, List.mem_cons] at hd
      rcases hd with h | h
      · omega
      · exact ih _ _ h

/-- Undo `Nat.digitChar` on decimal digits. -/
def charVal (c : Char) : Nat := c.toNat - 48

theorem charVal_digitChar : ∀ d, d < 10 → charVal (Nat.digitChar d) = d := by
  decide

theorem map_digitChar_inj :
    ∀ (l1 l2 : List Nat), (∀ d ∈ l1, d < 10) → (∀ d ∈ l2, d < 10) →
      l1.map Nat.digitChar = l2.map Nat.digitChar → l1 = l2 := by
  intro l1
  induction l1 with
  | nil =>
    intro l2 _ _ h
    cases l2 with
    | nil => rfl
    | cons b bs => simp at h
  | cons a as ih =>
    intro l2 h1 h2 h
    cases l2 with
    | nil => simp at h
    | cons b bs =>
      simp only [List.map_cons, List.cons.injEq] at h
      have ha : a < 10 := h1 a (List.mem_cons_self a as)
      have hb : b < 10 := h2 b (List.mem_cons_self b bs)
      have hab : a = b := by
        have := charVal_digitChar a ha
        rw [h.1] at this
        rw [charVal_digitChar b hb] at this
        omega
      have : as = bs := by
        refine ih bs (fun d hd => h1 d (List.mem_cons_of_mem a hd))
          (fun d hd => h2 d (List.mem_cons_of_mem b hd)) h.2
      simp [hab, this]

theorem decRepr_injective : Function.Injective decRepr := by
  intro m n h
  unfold decRepr at h
  by_cases hm : m = 0 <;> by_cases hn : n = 0
  · omega
  · exfalso
    simp only [hm, if_pos rfl, if_neg hn] at h
    have hdata : ("0" : String).data =
        (((natDigitsRev n n).map Nat.digitChar).reverse : List Char) :=
      congrArg String.data h
    have hrev : (natDigitsRev n n).map Nat.digitChar = [⟨48, by decide⟩] := by
      have := congrArg List.reverse hdata
      simpa using this.symm
    cases hL : natDigitsRev n n with
    | nil => rw [hL] at hrev; simp at hrev
    | cons d ds =>
      rw [hL] at hrev
      simp only [List.map_cons, List.cons.injEq, List.map_eq_nil_iff] at hrev
      have hd10 : d < 10 := natDigitsRev_lt_ten n n d (by rw [hL]; exact List.mem_cons_self d ds)
      have hd0 : d = 0 := by
        have := charVal_digitChar d hd10
        rw [hrev.1] at this
        simpa [charVal] using this.symm
      have hspec := natDigitsRev_spec n n (Nat.le_refl n)
      rw [hL, hrev.2, hd0] at hspec
      simp [ofDigitsRev] at hspec
      omega
  · exfalso
    simp only [hn, if_pos rfl, if_neg hm] at h
    have hdata : (((natDigitsRev m m).map Nat.digitChar).reverse : List Char) =
        ("0" : String).data := congrArg String.data h
    have hrev : (natDigitsRev m m).map Nat.digitChar = [⟨48, by decide⟩] := by
      have := congrArg List.reverse hdata
      simpa using this
    cases hL : natDigitsRev m m with
    | nil => rw [hL] at hrev; simp at hrev
    | cons d ds =>
      rw [hL] at hrev
      simp only [List.map_cons, List.cons.injEq, List.map_eq_nil_iff] at hrev
      have hd10 : d < 10 := natDigitsRev_lt_ten m m d (by rw [hL]; exact List.mem_cons_self d ds)
      have hd0 : d = 0 := by
        have := charVal_digitChar d hd10
        rw [hrev.1] at this
        simpa [charVal] using this.symm
      have hspec := natDigitsRev_spec m m (Nat.le_refl m)
      rw [hL, hrev.2, hd0] at hspec
      simp [ofDigitsRev] at hspec
      omega
  · simp only [if_neg hm, if_neg hn] at h
    have hdata := congrArg String.data h
    simp only [String.data] at hdata
    have hmaps : (natDigitsRev m m).map Nat.digitChar = (natDigitsRev n n).map Nat.digitChar := by
      have := congrArg List.reverse hdata
      simpa using this
    have hdig : natDigitsRev m m = natDigitsRev n n :=
      map_digitChar_inj _ _ (fun d hd => natDigitsRev_lt_ten m m d hd)
        (fun d hd => natDigitsRev_lt_ten n n d hd) hmaps
    have h1 := natDigitsRev_spec m m (Nat.le_refl m)
    have h2 := natDigitsRev_spec n n (Nat.le_refl n)
    rw [hdig] at h1
    omega

/-! ### JSON serialization

`JSON.stringify` of the records involved, with fields in declaration
order; absent (`undefined`) optional fields are omitted, `null` inputs
print as `null`.  Braces are written with their `\x7b`/`\x7d` escapes. -/

/-- Comma-join a list of strings, as array elements in `JSON.stringify`. -/
def joinComma : List String → String
  | [] => ""
  | [x] => x
  | x :: xs => x ++ "," ++ joinComma xs

/-- Model of `JSON.stringify` of a `StoredPasswordInfo` (`{ hash, salt }`). -/
def serializePasswordInfo (p : StoredPasswordInfo) : String :=
  "\x7b\"hash\":\"" ++ p.hash ++ "\",\"salt\":\"" ++ p.salt ++ "\"\x7d"

/-- Model of `JSON.stringify` of an `EnhancedIntegrityData`. -/
def serializeIntegrityData (d : EnhancedIntegrityData) : String :=
  "\x7b\"primaryHash\":\"" ++ d.primaryHash ++ "\",\"secondaryHash\":\"" ++
    d.secondaryHash ++ "\",\"timestamp\":" ++ decRepr d.timestamp ++
    ",\"deviceId\":\"" ++ d.deviceId ++ "\",\"version\":" ++ decRepr d.version ++ "\x7d"

/-- Model of `JSON.stringify` of a numeric array. -/
def serializeNatList (l : List Nat) : String :=
  "[" ++ joinComma (l.map decRepr) ++ "]"

/-- Model of `JSON.stringify` of an `EnhancedFailedLoginAttempts`; the optional
`lockedUntil` field is omitted when absent. -/
def serializeAttempts (a : EnhancedFailedLoginAttempts) : String :=
  "\x7b\"count\":" ++ decRepr a.count ++ ",\"lastAttempt\":" ++ decRepr a.lastAttempt ++
    (match a.lockedUntil with
      | some l => ",\"lockedUntil\":" ++ decRepr l
      | none => "") ++
    ",\"attemptHistory\":" ++ serializeNatList a.attemptHistory ++ "\x7d"

/-- Serialize an optional value, printing `null` when absent. -/
def serializeOpt {α : Type} (f : α → String) : Option α → String
  | none => "null"
  | some a => f a

/-- Model of `JSON.stringify` of a `TextSnippet`; optional `title` omitted when absent. -/
def serializeSnippet (sn : TextSnippet) : String :=
  "\x7b\"id\":\"" ++ sn.id ++ "\",\"text\":\"" ++ sn.text ++ "\"" ++
    (match sn.title with
      | some t => ",\"title\":\"" ++ t ++ "\""
      | none => "") ++ "\x7d"

/-- Model of `JSON.stringify` of a `Folder`. -/
def serializeFolder (f : Folder) : String :=
  "\x7b\"id\":\"" ++ f.id ++ "\",\"name\":\"" ++ f.name ++ "\",\"snippets\":[" ++
    joinComma (f.snippets.map serializeSnippet) ++ "]\x7d"

/-- Model of `JSON.stringify` of a folder array. -/
def serializeFolders (fs : List Folder) : String :=
  "[" ++ joinComma (fs.map serializeFolder) ++ "]"

/-- Model of `JSON.stringify` of whatever the folders slot holds (array or string). -/
def serializeFoldersVal : FoldersVal → String
  | .plain fs => serializeFolders fs
  | .enc blob => "\"" ++ blob ++ "\""

/-! ### Device identifier and integrity hashes (`enhancedSecurity.ts`) -/

/-- Model of `generateDeviceId`: return the persisted `device_id` from localStorage, or
create (`crypto.randomUUID`) and persist a fresh one. -/
def generateDeviceId (fresh : String) (s : Store) : String × Store :=
  match s.deviceId with
  | some existingId => (existingId, s)
  | none => (fresh, { s with deviceId := some fresh })

/-- Model of `createIntegrityHashes`: SHA-256 of the serialized record, and SHA-512 of
the serialization concatenated with the device id. -/
def createIntegrityHashes (env : CryptoEnv) (deviceId : String)
    (passwordInfo : StoredPasswordInfo) : String × String :=
  let data := serializePasswordInfo passwordInfo
  (env.sha256 (env.utf8encode data), env.sha512 (env.utf8encode (data ++ deviceId)))

/-- The `storage.setItem(STORAGE_KEYS.INTEGRITY, backupIntegrityData)` restore
performed when the primary copy is missing but the backup is valid. -/
def restorePrimary (cond : Bool) (backup : Option EnhancedIntegrityData) (s : Store) : Store :=
  if cond then { s with integrity := backup } else s

/-- The `storage.setItem(STORAGE_KEYS.INTEGRITY_BACKUP, primaryIntegrityData)`
restore performed when the backup copy is missing but the primary is valid. -/
def restoreBackup (cond : Bool) (primary : Option EnhancedIntegrityData) (s : Store) : Store :=
  if cond then { s with integrityBackup := primary } else s

/-- Model of `verifyEnhancedIntegrity`: reads both copies; fails when both are absent;
recomputes the hashes and accepts when either copy matches; restores a
missing copy from the other valid one. -/
def verifyEnhancedIntegrity (env : CryptoEnv) (s : Store)
    (passwordInfo : StoredPasswordInfo) : Bool × Store :=
  let primaryIntegrityData := s.integrity
  let backupIntegrityData := s.integrityBackup
  if primaryIntegrityData.isNone && backupIntegrityData.isNone then
    (false, s)
  else
    let gen := generateDeviceId env.freshUUID s
    let hashes := createIntegrityHashes env gen.1 passwordInfo
    let primaryCheck :=
      match primaryIntegrityData with
      | some d => hashes.1 == d.primaryHash && hashes.2 == d.secondaryHash
      | none => false
    let backupCheck :=
      match backupIntegrityData with
      | some d => hashes.1 == d.primaryHash && hashes.2 == d.secondaryHash
      | none => false
    let isValid := primaryCheck || backupCheck
    let s3 := restoreBackup (backupIntegrityData.isNone && primaryCheck) primaryIntegrityData
      (restorePrimary (primaryIntegrityData.isNone && backupCheck) backupIntegrityData gen.2)
    (isValid, s3)

/-! ### Security checksum and boot check (`enhancedSecurity.ts`) -/

/-- Everything `createSecurityChecksum` serializes before the timestamp:
password info, primary integrity data, primary failed attempts, device id. -/
def checksumHead (p : Option StoredPasswordInfo) (i : Option EnhancedIntegrityData)
    (f : Option EnhancedFailedLoginAttempts) (deviceId : String) : String :=
  "\x7b\"passwordInfo\":" ++ serializeOpt serializePasswordInfo p ++
    ",\"integrityData\":" ++ serializeOpt serializeIntegrityData i ++
    ",\"failedAttempts\":" ++ serializeOpt serializeAttempts f ++
    ",\"deviceId\":\"" ++ deviceId ++ "\",\"timestamp\":"

/-- The combined string hashed by `createSecurityChecksum`: the serialized
security data together with the volatile `Date.now()` timestamp. -/
def serializeChecksumInput (p : Option StoredPasswordInfo)
    (i : Option EnhancedIntegrityData) (f : Option EnhancedFailedLoginAttempts)
    (deviceId : String) (timestamp : Nat) : String :=
  checksumHead p i f deviceId ++ decRepr timestamp ++ "\x7d"

/-- Model of `createSecurityChecksum`: SHA-256 over the serialized security data,
device id and the current time. -/
def createSecurityChecksum (env : CryptoEnv) (now : Nat) (s : Store) :
    String × Store :=
  let gen := generateDeviceId env.freshUUID s
  (env.sha256 (env.utf8encode
      (serializeChecksumInput s.passwordInfo s.integrity s.failedAttempts gen.1 now)),
    gen.2)

/-- Model of `updateSecurityMetadata`: recompute the checksum, bump `bootCount`, persist
the metadata and its localStorage backup copy. -/
def updateSecurityMetadata (env : CryptoEnv) (now : Nat) (s : Store) : Store :=
  let existingMetadata := s.securityMetadata
  let cs := createSecurityChecksum env now s
  let metadata : SecurityMetadata :=
    { checksum := cs.1
      lastVerified := now
      securityVersion := 1
      bootCount := (existingMetadata.map (fun m => m.bootCount)).getD 0 + 1 }
  { cs.2 with
      securityMetadata := some metadata
      metadataBackup := some (cs.1, now) }

/-- Model of `performSecurityBootCheck`: on first boot (no metadata) initialize and
return intact unless a password record already exists; otherwise compare the
recomputed checksum with the stored one, bump the boot count, and re-persist. -/
def performSecurityBootCheck (env : CryptoEnv) (now : Nat) (s : Store) :
    Bool × Store :=
  match s.securityMetadata with
  | none =>
    match s.passwordInfo with
    | some _ => (false, updateSecurityMetadata env now s)
    | none => (true, updateSecurityMetadata env now s)
  | some metadata =>
    let cs := createSecurityChecksum env now s
    let isChecksumValid := cs.1 == metadata.checksum
    if isChecksumValid then
      let updatedMetadata : SecurityMetadata :=
        { metadata with bootCount := metadata.bootCount + 1, lastVerified := now }
      (true, { cs.2 with securityMetadata := some updatedMetadata })
    else
      let updatedMetadata : SecurityMetadata :=
        { metadata with
            bootCount := metadata.bootCount + 1
            lastVerified := now
            checksum := cs.1 }
      (false, { cs.2 with securityMetadata := some updatedMetadata })

/-! ### Login rate limiter (`trackEnhancedFailedLogin`) -/

/-- The `attempts.lockedUntil && Date.now() < attempts.lockedUntil` test. -/
def lockActive (now : Nat) (a : EnhancedFailedLoginAttempts) : Bool :=
  match a.lockedUntil with
  | some l => now < l
  | none => false

/-- Write an attempts record to both storage locations. -/
def writeAttempts (a : EnhancedFailedLoginAttempts) (s : Store) : Store :=
  { s with failedAttempts := some a, failedAttemptsBackup := some a }

/-- Model of `trackEnhancedFailedLogin`, the rendering in which no storage operation
fails: load the record (primary, then backup, else fresh); if currently
locked return the remaining wait; reset the count after more than 30 idle
minutes; increment; keep the 10 most recent timestamps; lock for 15 minutes
upon reaching 5; persist to both locations. -/
def trackEnhancedFailedLogin (now : Nat) (s : Store) : (Bool × Nat) × Store :=
  let attempts0 :=
    match s.failedAttempts with
    | some a => a
    | none =>
      match s.failedAttemptsBackup with
      | some a => a
      | none => ⟨0, 0, none, []⟩
  if lockActive now attempts0 then
    ((true, (attempts0.lockedUntil.getD 0 - now + 999) / 1000), s)
  else
    let attempts1 := if now - attempts0.lastAttempt > 30 * 60 * 1000 then
        { attempts0 with count := 0, attemptHistory := [] }
      else attempts0
    let newCount := attempts1.count + 1
    let hist0 := attempts1.attemptHistory ++ [now]
    let hist := if hist0.length > 10 then hist0.drop 1 else hist0
    if newCount ≥ 5 then
      let a : EnhancedFailedLoginAttempts :=
        ⟨newCount, now, some (now + 15 * 60 * 1000), hist⟩
      ((true, 15 * 60),
        { writeAttempts a s with lockoutBackup := some (now + 15 * 60 * 1000) })
    else
      let a : EnhancedFailedLoginAttempts := ⟨newCount, now, attempts1.lockedUntil, hist⟩
      ((false, 0), writeAttempts a s)

/-- Fold a sequence of failed-attempt recordings over the store. -/
def recordFailures (times : List Nat) (s : Store) : Store :=
  times.foldl (fun acc t => (trackEnhancedFailedLogin t acc).2) s

/-- The storage operations `trackEnhancedFailedLogin` performs, each of which
may throw (`Except.error`). -/
structure FallibleRateStore where
  getPrimary : Except Unit (Option EnhancedFailedLoginAttempts)
  getBackup : Except Unit (Option EnhancedFailedLoginAttempts)
  setPrimary : EnhancedFailedLoginAttempts → Except Unit Unit
  setBackup : EnhancedFailedLoginAttempts → Except Unit Unit
  setLocalLockout : Nat → Except Unit Unit

/-- The `try` body of `trackEnhancedFailedLogin` over fallible storage. -/
def trackFailedLoginBody (now : Nat) (st : FallibleRateStore) :
    Except Unit (Bool × Nat) := do
  let primary ← st.getPrimary
  let found ←
    match primary with
    | some a => pure (some a)
    | none => st.getBackup
  let attempts0 := found.getD ⟨0, 0, none, []⟩
  if lockActive now attempts0 then
    return (true, (attempts0.lockedUntil.getD 0 - now + 999) / 1000)
  else
    let attempts1 := if now - attempts0.lastAttempt > 30 * 60 * 1000 then
        { attempts0 with count := 0, attemptHistory := [] }
      else attempts0
    let newCount := attempts1.count + 1
    let hist0 := attempts1.attemptHistory ++ [now]
    let hist := if hist0.length > 10 then hist0.drop 1 else hist0
    if newCount ≥ 5 then
      let a : EnhancedFailedLoginAttempts :=
        ⟨newCount, now, some (now + 15 * 60 * 1000), hist⟩
      let _ ← st.setPrimary a
      let _ ← st.setBackup a
      let _ ← st.setLocalLockout (now + 15 * 60 * 1000)
      return (true, 15 * 60)
    else
      let a : EnhancedFailedLoginAttempts := ⟨newCount, now, attempts1.lockedUntil, hist⟩
      let _ ← st.setPrimary a
      let _ ← st.setBackup a
      return (false, 0)

/-- Model of `trackEnhancedFailedLogin` with its `catch` clause: any storage failure
yields `{ isLocked: false, waitTime: 0 }`. -/
def trackFailedLoginCaught (now : Nat) (st : FallibleRateStore) : Bool × Nat :=
  match trackFailedLoginBody now st with
  | .ok r => r
  | .error _ => (false, 0)

/-- A fallible view of a `Store` whose primary-attempts read may throw and
whose writes succeed. -/
def fallibleOf (s : Store) (failPrimaryRead : Bool) : FallibleRateStore :=
  { getPrimary := if failPrimaryRead then .error () else .ok s.failedAttempts
    getBackup := .ok s.failedAttemptsBackup
    setPrimary := fun _ => .ok ()
    setBackup := fun _ => .ok ()
    setLocalLockout := fun _ => .ok () }

/-! ### Session challenge and authentication state (`enhancedSecurity.ts`) -/

/-- Model of `hexToBuffer` helper: value of one hex digit, `none` when invalid. -/
def hexDigitVal : Char → Option Nat :=
  fun c =>
    if '0' ≤ c ∧ c ≤ '9' then some (c.toNat - 48)
    else if 'a' ≤ c ∧ c ≤ 'f' then some (c.toNat - 87)
    else if 'A' ≤ c ∧ c ≤ 'F' then some (c.toNat - 55)
    else none

/-- Model of `parseInt(pair, 16)` coerced to a byte as `Uint8Array` assignment does
(`NaN` becomes 0, a valid first digit alone keeps its value). -/
def parseHexPair (c1 c2 : Char) : Nat :=
  match hexDigitVal c1 with
  | none => 0
  | some v1 =>
    match hexDigitVal c2 with
    | none => v1
    | some v2 => 16 * v1 + v2

/-- Consume a character list two at a time into bytes. -/
def hexPairsToBytes : List Char → List Nat
  | c1 :: c2 :: rest => parseHexPair c1 c2 :: hexPairsToBytes rest
  | _ => []

/-- Model of `hexToBuffer` from `crypto.ts`. -/
def hexToBuffer (hex : String) : List Nat :=
  hexPairsToBytes hex.data

/-- One byte as two lowercase hex digits (`b.toString(16).padStart(2, '0')`). -/
def byteToHex (b : Nat) : String :=
  ⟨[Nat.digitChar (b / 16 % 16), Nat.digitChar (b % 16)]⟩

/-- Model of `bufferToHex` from `crypto.ts`. -/
def bufferToHex (bytes : List Nat) : String :=
  (bytes.map byteToHex).foldl (fun acc h => acc ++ h) ""

/-- Model of `verifyEnhancedAuthChallenge`: absent or expired (24h, deleted on expiry)
challenges fail; otherwise recompute `SHA256(salt || challenge || hash ||
nonce)` from the current record and compare with the stored response. -/
def verifyEnhancedAuthChallenge (env : CryptoEnv) (now : Nat) (s : Store)
    (passwordInfo : StoredPasswordInfo) : Bool × Store :=
  match s.sessionChallenge with
  | none => (false, s)
  | some authChallenge =>
    if now - authChallenge.timestamp > 24 * 60 * 60 * 1000 then
      (false, { s with sessionChallenge := none })
    else
      let combined := hexToBuffer passwordInfo.salt ++ hexToBuffer authChallenge.challenge ++
        hexToBuffer passwordInfo.hash ++ hexToBuffer authChallenge.nonce
      (env.sha256 combined == authChallenge.response, s)

/-- Model of `verifyAuthenticationState`: session flag present and true, integrity
valid, challenge valid. -/
def verifyAuthenticationState (env : CryptoEnv) (now : Nat) (s : Store)
    (passwordInfo : StoredPasswordInfo) : Bool × Store :=
  match s.sessionAuth with
  | some true =>
    let iv := verifyEnhancedIntegrity env s passwordInfo
    if iv.1 then
      verifyEnhancedAuthChallenge env now iv.2 passwordInfo
    else
      (false, iv.2)
  | _ => (false, s)

/-- Model of `lockApplication`: clear the session-authenticated flag and the session
challenge. -/
def lockApplication (s : Store) : Store :=
  { s with sessionAuth := none, sessionChallenge := none }

/-- Model of `storeEnhancedIntegrityData`: write fresh integrity data to the primary
location and, with a nudged timestamp, to the backup location, then update
the security metadata. -/
def storeEnhancedIntegrityData (env : CryptoEnv) (now : Nat)
    (passwordInfo : StoredPasswordInfo) (s : Store) : Store :=
  let gen := generateDeviceId env.freshUUID s
  let hashes := createIntegrityHashes env gen.1 passwordInfo
  let integrityData : EnhancedIntegrityData :=
    { primaryHash := hashes.1
      secondaryHash := hashes.2
      timestamp := now
      deviceId := gen.1
      version := 1 }
  let backupData : EnhancedIntegrityData := { integrityData with timestamp := now + 1 }
  let s1 := { gen.2 with integrity := some integrityData, integrityBackup := some backupData }
  updateSecurityMetadata env now s1

/-! ### Password change (`handleChangePassword` in `App.tsx`) -/

/-- Model of `handleChangePassword`: reject when no password is set or the new one is
shorter than 8 characters; verify integrity; verify the current password;
then store the new record, regenerate integrity data and lock the
application.  Returns the `authError` message (`none` on success) and the
resulting store. -/
def handleChangePassword (env : CryptoEnv) (now : Nat) (saltNew : List Nat)
    (currentPassword newPassword : String)
    (passwordInfo : Option StoredPasswordInfo) (s : Store) :
    Option String × Store :=
  match passwordInfo with
  | none => (some "No password is currently set.", s)
  | some p =>
    if newPassword.length < 8 then
      (some "New password must be at least 8 characters long.", s)
    else
      let iv := verifyEnhancedIntegrity env s p
      if !iv.1 then
        (some "Security error: Authentication data may have been tampered with.", iv.2)
      else
        let isValid := env.pbkdf2hex currentPassword (hexToBuffer p.salt) == p.hash
        if !isValid then
          (some "Current password is incorrect.", iv.2)
        else
          let newHash := env.pbkdf2hex newPassword saltNew
          let newPasswordInfo : StoredPasswordInfo :=
            { hash := newHash, salt := bufferToHex saltNew }
          let s2 := { iv.2 with passwordInfo := some newPasswordInfo }
          let s3 := storeEnhancedIntegrityData env now newPasswordInfo s2
          (none, lockApplication s3)

/-! ### Encrypted folder store (`securityUtils.ts` second half and
`crypto.ts`) -/

/-- Model of `substring(0, n)` on a string. -/
def substringTo (s : String) (n : Nat) : String :=
  ⟨s.data.take n⟩

/-- Model of `isEncryptionEnabled`: the stored flag strictly equals `true`. -/
def isEncryptionEnabled (s : Store) : Bool :=
  s.encryptionEnabled == some true

/-- Model of `setEncryptionEnabled`. -/
def setEncryptionEnabled (enabled : Bool) (s : Store) : Store :=
  { s with encryptionEnabled := some enabled }

/-- Model of `getCurrentPassword`: the first 32 characters of the stored password hash,
`none` when no password is set. -/
def getCurrentPassword (s : Store) : Option String :=
  s.passwordInfo.map (fun p => substringTo p.hash 32)

/-- Model of `encryptData` from `crypto.ts`: PBKDF2 key from the password and a fresh
16-byte salt, AES-GCM under a fresh 12-byte IV, output
`base64(salt || iv || ciphertext)`.  The fresh random bytes are passed as
arguments; a provider failure yields `none` (the thrown
`Failed to encrypt data`). -/
def encryptData (env : CryptoEnv) (salt iv : List Nat) (data password : String) :
    Option String :=
  let passwordBuffer := env.utf8encode password
  let key := env.pbkdf2 passwordBuffer salt
  let dataBuffer := env.utf8encode data
  match env.aesEncrypt key iv dataBuffer with
  | none => none
  | some encryptedBuffer => some (env.b64encode (salt ++ iv ++ encryptedBuffer))

/-- Model of `decryptData` from `crypto.ts`: split the decoded blob into
`salt(16) || iv(12) || ciphertext`, re-derive the key, AES-GCM decrypt;
`none` is the thrown `Failed to decrypt data`. -/
def decryptData (env : CryptoEnv) (encryptedData password : String) :
    Option String :=
  let encryptedBuffer := env.b64decode encryptedData
  let salt := encryptedBuffer.take 16
  let iv := (encryptedBuffer.drop 16).take 12
  let data := encryptedBuffer.drop 28
  let passwordBuffer := env.utf8encode password
  let key := env.pbkdf2 passwordBuffer salt
  (env.aesDecrypt key iv data).map env.utf8decode

/-- Model of `encryptFolders`: `JSON.stringify` its argument and encrypt it under the
derived current password; `none` when no password is available or the
provider fails. -/
def encryptFolders (env : CryptoEnv) (salt iv : List Nat) (folders : FoldersVal)
    (s : Store) : Option String :=
  match getCurrentPassword s with
  | none => none
  | some password => encryptData env salt iv (serializeFoldersVal folders) password

/-- Model of `storeFoldersSecurely`: store encrypted when the flag is on and a password
exists; on a missing password or any encryption error fall back to writing
the folders in plaintext. -/
def storeFoldersSecurely (env : CryptoEnv) (salt iv : List Nat)
    (folders : List Folder) (s : Store) : Store :=
  if isEncryptionEnabled s then
    match s.passwordInfo with
    | none => { s with folders := some (.plain folders) }
    | some _ =>
      match encryptFolders env salt iv (.plain folders) s with
      | some encryptedData => { s with folders := some (.enc encryptedData) }
      | none => { s with folders := some (.plain folders) }
  else
    { s with folders := some (.plain folders) }

/-- Model of `migrateToEncryptedStorage`: no-op success when already enabled; fail
(returning `false`, leaving the store untouched) when no password record
exists; otherwise encrypt the current folders, store the blob and enable the
flag. -/
def migrateToEncryptedStorage (env : CryptoEnv) (salt iv : List Nat) (s : Store) :
    Bool × Store :=
  if isEncryptionEnabled s then
    (true, s)
  else
    let folders := s.folders.getD (.plain [])
    match s.passwordInfo with
    | none => (false, s)
    | some _ =>
      match encryptFolders env salt iv folders s with
      | none => (false, s)
      | some encryptedData =>
        (true, setEncryptionEnabled true ({ s with folders := some (.enc encryptedData) }))

/-! ### Helper lemmas -/

theorem string_data_append (a b : String) : (a ++ b).data = a.data ++ b.data := rfl

theorem generateDeviceId_snd (fresh : String) (s : Store) :
    (generateDeviceId fresh s).2 = { s with deviceId := some (generateDeviceId fresh s).1 } := by
  unfold generateDeviceId
  cases h : s.deviceId with
  | none => rfl
  | some existingId =>
    cases s
    simp at h
    simp [h]

theorem updateSecurityMetadata_passwordInfo (env : CryptoEnv) (now : Nat) (s : Store) :
    (updateSecurityMetadata env now s).passwordInfo = s.passwordInfo := by
  unfold updateSecurityMetadata createSecurityChecksum
  simp [generateDeviceId_snd]

theorem updateSecurityMetadata_integrity (env : CryptoEnv) (now : Nat) (s : Store) :
    (updateSecurityMetadata env now s).integrity = s.integrity := by
  unfold updateSecurityMetadata createSecurityChecksum
  simp [generateDeviceId_snd]

theorem updateSecurityMetadata_integrityBackup (env : CryptoEnv) (now : Nat) (s : Store) :
    (updateSecurityMetadata env now s).integrityBackup = s.integrityBackup := by
  unfold updateSecurityMetadata createSecurityChecksum
  simp [generateDeviceId_snd]

theorem updateSecurityMetadata_sessionAuth (env : CryptoEnv) (now : Nat) (s : Store) :
    (updateSecurityMetadata env now s).sessionAuth = s.sessionAuth := by
  unfold updateSecurityMetadata createSecurityChecksum
  simp [generateDeviceId_snd]

theorem updateSecurityMetadata_sessionChallenge (env : CryptoEnv) (now : Nat) (s : Store) :
    (updateSecurityMetadata env now s).sessionChallenge = s.sessionChallenge := by
  unfold updateSecurityMetadata createSecurityChecksum
  simp [generateDeviceId_snd]

theorem restorePrimary_passwordInfo (c : Bool) (b : Option EnhancedIntegrityData)
    (s : Store) : (restorePrimary c b s).passwordInfo = s.passwordInfo := by
  unfold restorePrimary
  split <;> rfl

theorem restoreBackup_passwordInfo (c : Bool) (b : Option EnhancedIntegrityData)
    (s : Store) : (restoreBackup c b s).passwordInfo = s.passwordInfo := by
  unfold restoreBackup
  split <;> rfl

theorem verifyEnhancedIntegrity_passwordInfo (env : CryptoEnv) (s : Store)
    (p : StoredPasswordInfo) :
    ((verifyEnhancedIntegrity env s p).2).passwordInfo = s.passwordInfo := by
  simp only [verifyEnhancedIntegrity]
  split
  · rfl
  · simp [restoreBackup_passwordInfo, restorePrimary_passwordInfo, generateDeviceId_snd]

theorem verifyAuthenticationState_of_sessionAuth_none (env : CryptoEnv) (t : Nat)
    (s : Store) (q : StoredPasswordInfo) (h : s.sessionAuth = none) :
    (verifyAuthenticationState env t s q).1 = false := by
  unfold verifyAuthenticationState
  simp [h]

/-! ### Concrete environments for witnesses

Transparent stand-ins for the external primitives, so that witnesses can be
evaluated by the kernel.  They satisfy the idealization hypotheses at the
concrete inputs where the witnesses apply the theorems. -/

/-- A fully computable mock crypto environment. -/
def toyEnv : CryptoEnv :=
  { sha256 := fun bytes => ⟨bytes.map Char.ofNat⟩
    sha512 := fun bytes => "S" ++ ⟨bytes.map Char.ofNat⟩
    utf8encode := fun str => str.data.map Char.toNat
    utf8decode := fun bytes => ⟨bytes.map Char.ofNat⟩
    b64encode := fun bytes => ⟨bytes.map Char.ofNat⟩
    b64decode := fun str => str.data.map Char.toNat
    pbkdf2 := fun pw salt => pw ++ salt
    pbkdf2hex := fun pw _ => pw
    aesEncrypt := fun key _ msg => some (key ++ msg)
    aesDecrypt := fun key _ ct => if ct.take key.length == key then some (ct.drop key.length) else none
    freshUUID := "uuid" }

/-- Like `toyEnv` but with an always-failing encryption provider. -/
def toyEnvFail : CryptoEnv :=
  { toyEnv with aesEncrypt := fun _ _ _ => none }

/-! ### C1: quorum-of-1 integrity verification -/

/-- C1: for every credential record, `verifyEnhancedIntegrity` returns false
when both the primary and backup integrity copies are absent, and returns
true iff at least one stored copy is present whose `primaryHash` and
`secondaryHash` both equal the hashes recomputed from the record (SHA-256 of
the serialized record, SHA-512 of the serialization concatenated with the
device id). -/
theorem C1_verifyEnhancedIntegrity_quorum (env : CryptoEnv) (s : Store)
    (p : StoredPasswordInfo) :
    (s.integrity = none ∧ s.integrityBackup = none →
      (verifyEnhancedIntegrity env s p).1 = false) ∧
    ((verifyEnhancedIntegrity env s p).1 = true ↔
      ∃ d : EnhancedIntegrityData,
        (s.integrity = some d ∨ s.integrityBackup = some d) ∧
        env.sha256 (env.utf8encode (serializePasswordInfo p)) = d.primaryHash ∧
        env.sha512 (env.utf8encode
          (serializePasswordInfo p ++ (generateDeviceId env.freshUUID s).1)) =
            d.secondaryHash) := by
  constructor
  · rintro ⟨h1, h2⟩
    simp [verifyEnhancedIntegrity, h1, h2]
  · cases hi : s.integrity <;> cases hb : s.integrityBackup <;>
      simp [verifyEnhancedIntegrity, createIntegrityHashes, hi, hb, or_and_right,
        exists_or]

/-- C1 witness: with both copies absent, verification fails. -/
theorem C1_witness :
    (verifyEnhancedIntegrity toyEnv emptyStore ⟨"h", "s"⟩).1 = false :=
  (C1_verifyEnhancedIntegrity_quorum toyEnv emptyStore ⟨"h", "s"⟩).1 ⟨rfl, rfl⟩

/-! ### C5: self-repair of the weak integrity copy -/

/-- Credential record for the C5 counterexample. -/
def c5P : StoredPasswordInfo := ⟨"h", "s"⟩

/-- A valid integrity copy for `c5P` under `toyEnv` and device id `dev`. -/
def c5Good : EnhancedIntegrityData :=
  ⟨toyEnv.sha256 (toyEnv.utf8encode (serializePasswordInfo c5P)),
    toyEnv.sha512 (toyEnv.utf8encode (serializePasswordInfo c5P ++ "dev")), 0, "dev", 1⟩

/-- The same copy with a corrupted primary hash. -/
def c5Bad : EnhancedIntegrityData := { c5Good with primaryHash := "XX" }

/-- Store whose primary integrity copy is present but corrupted while the
backup copy is valid. -/
def c5Store : Store :=
  { emptyStore with
      integrity := some c5Bad
      integrityBackup := some c5Good
      deviceId := some "dev" }

/-- C5 counterexample: with the primary copy present but mismatched and the
backup valid, verification returns true yet leaves the mismatched primary
copy in place, so after the call the primary location does not hold a
matching copy — the claimed repair of a mismatched (rather than missing)
copy does not happen. -/
theorem C5_counterexample :
    (verifyEnhancedIntegrity toyEnv c5Store c5P).1 = true ∧
    ((verifyEnhancedIntegrity toyEnv c5Store c5P).2).integrity = some c5Bad ∧
    c5Bad.primaryHash ≠ toyEnv.sha256 (toyEnv.utf8encode (serializePasswordInfo c5P)) := by
  refine ⟨by decide, by decide, by decide⟩

/-- C5 (amended): when exactly one copy is missing while the other matches the
recomputed hashes, verification returns true and restores the missing copy
from the valid one, so both locations hold the matching data afterwards; a
copy that is present is never overwritten — when both copies are present the
stored copies are left unchanged, even if one of them is mismatched. -/
theorem C5_amended_repair (env : CryptoEnv) (s : Store) (p : StoredPasswordInfo) :
    (∀ d : EnhancedIntegrityData, s.integrity = none → s.integrityBackup = some d →
      env.sha256 (env.utf8encode (serializePasswordInfo p)) = d.primaryHash →
      env.sha512 (env.utf8encode
        (serializePasswordInfo p ++ (generateDeviceId env.freshUUID s).1)) = d.secondaryHash →
      verifyEnhancedIntegrity env s p =
        (true, { (generateDeviceId env.freshUUID s).2 with integrity := some d })) ∧
    (∀ d : EnhancedIntegrityData, s.integrityBackup = none → s.integrity = some d →
      env.sha256 (env.utf8encode (serializePasswordInfo p)) = d.primaryHash →
      env.sha512 (env.utf8encode
        (serializePasswordInfo p ++ (generateDeviceId env.freshUUID s).1)) = d.secondaryHash →
      verifyEnhancedIntegrity env s p =
        (true, { (generateDeviceId env.freshUUID s).2 with integrityBackup := some d })) ∧
    (∀ d1 d2 : EnhancedIntegrityData, s.integrity = some d1 → s.integrityBackup = some d2 →
      ((verifyEnhancedIntegrity env s p).2).integrity = some d1 ∧
      ((verifyEnhancedIntegrity env s p).2).integrityBackup = some d2) := by
  refine ⟨?_, ?_, ?_⟩
  · intro d h1 h2 hp hs
    simp [verifyEnhancedIntegrity, createIntegrityHashes, restorePrimary, restoreBackup,
      h1, h2, hp, hs]
  · intro d h1 h2 hp hs
    simp [verifyEnhancedIntegrity, createIntegrityHashes, restorePrimary, restoreBackup,
      h1, h2, hp, hs]
  · intro d1 d2 h1 h2
    constructor <;>
      simp [verifyEnhancedIntegrity, createIntegrityHashes, restorePrimary, restoreBackup,
        h1, h2, generateDeviceId_snd]

/-- C5 witness: a missing primary copy is restored from the valid backup. -/
theorem C5_witness :
    verifyEnhancedIntegrity toyEnv ({ c5Store with integrity := none }) c5P =
      (true, { { c5Store with integrity := none } with integrity := some c5Good }) :=
  (C5_amended_repair toyEnv ({ c5Store with integrity := none }) c5P).1 c5Good rfl rfl
    (by decide) (by decide)

/-! ### C2: the boot checksum hashes its own timestamp -/

theorem string_data_inj {a b : String} (h : a.data = b.data) : a = b :=
  String.ext h

/-- Two checksum inputs over the same security data but different timestamps
are different strings. -/
theorem serializeChecksumInput_timestamp_inj (p : Option StoredPasswordInfo)
    (i : Option EnhancedIntegrityData) (f : Option EnhancedFailedLoginAttempts)
    (deviceId : String) {t1 t0 : Nat}
    (h : serializeChecksumInput p i f deviceId t1 = serializeChecksumInput p i f deviceId t0) :
    t1 = t0 := by
  unfold serializeChecksumInput at h
  have hd := congrArg String.data h
  rw [string_data_append, string_data_append, string_data_append, string_data_append] at hd
  have h1 := List.append_cancel_right hd
  have h2 := List.append_cancel_left h1
  exact decRepr_injective (string_data_inj h2)

/-- C2: since the security checksum input includes the current time, at any
boot whose time differs from the one at which the stored checksum was
computed — even with the security data unchanged — the recomputed checksum
differs from the stored one (given that SHA-256 does not collide on the two
inputs) and the boot check reports an anomaly. -/
theorem C2_bootCheck_reports_anomaly (env : CryptoEnv) (s : Store)
    (m : SecurityMetadata) (dId : String) (t0 t1 : Nat)
    (hm : s.securityMetadata = some m)
    (hdev : s.deviceId = some dId)
    (hstored : m.checksum = env.sha256 (env.utf8encode
      (serializeChecksumInput s.passwordInfo s.integrity s.failedAttempts dId t0)))
    (hne : t1 ≠ t0)
    (hcoll : env.sha256 (env.utf8encode
        (serializeChecksumInput s.passwordInfo s.integrity s.failedAttempts dId t1)) =
      env.sha256 (env.utf8encode
        (serializeChecksumInput s.passwordInfo s.integrity s.failedAttempts dId t0)) →
      serializeChecksumInput s.passwordInfo s.integrity s.failedAttempts dId t1 =
        serializeChecksumInput s.passwordInfo s.integrity s.failedAttempts dId t0) :
    (createSecurityChecksum env t1 s).1 ≠ m.checksum ∧
    (performSecurityBootCheck env t1 s).1 = false := by
  have hgen : (generateDeviceId env.freshUUID s).1 = dId := by
    simp [generateDeviceId, hdev]
  have hcur : (createSecurityChecksum env t1 s).1 = env.sha256 (env.utf8encode
      (serializeChecksumInput s.passwordInfo s.integrity s.failedAttempts dId t1)) := by
    simp [createSecurityChecksum, hgen]
  have hneq : (createSecurityChecksum env t1 s).1 ≠ m.checksum := by
    rw [hcur, hstored]
    intro hEq
    exact hne (serializeChecksumInput_timestamp_inj _ _ _ _ (hcoll hEq))
  refine ⟨hneq, ?_⟩
  have hbeq : ((createSecurityChecksum env t1 s).1 == m.checksum) = false := by
    simpa using hneq
  simp only [performSecurityBootCheck, hm]
  simp [hbeq]

/-- Metadata whose checksum was computed at time 0 over an otherwise empty
store with device id `dev`. -/
def c2Meta : SecurityMetadata :=
  ⟨toyEnv.sha256 (toyEnv.utf8encode (serializeChecksumInput none none none "dev" 0)), 0, 1, 1⟩

/-- Store holding `c2Meta` as its security metadata. -/
def c2Store : Store :=
  { emptyStore with securityMetadata := some c2Meta, deviceId := some "dev" }

/-- C2 witness: booting at time 1 against a checksum stored at time 0 reports
an anomaly. -/
theorem C2_witness : (performSecurityBootCheck toyEnv 1 c2Store).1 = false :=
  (C2_bootCheck_reports_anomaly toyEnv c2Store c2Meta "dev" 0 1 rfl rfl rfl
    (by decide) (by decide)).2

/-! ### C6: boot check with no stored metadata -/

/-- Store with a password record but no security metadata. -/
def c6Store : Store := { emptyStore with passwordInfo := some ⟨"h", "s"⟩ }

/-- C6 counterexample: with no stored security metadata but an existing
password record, the boot check returns false, not the claimed "intact"
(true): the result depends on the other records in storage. -/
theorem C6_counterexample :
    c6Store.securityMetadata = none ∧
    (performSecurityBootCheck toyEnv 0 c6Store).1 = false := by
  exact ⟨rfl, by decide⟩

/-- C6 (amended): with no stored security checksum the boot check initializes
fresh security metadata (boot count 1, current checksum) and returns
"intact" (true) exactly when no credential record is stored; when a
credential record exists it still initializes the metadata but reports an
anomaly (false). -/
theorem C6_amended_firstBoot (env : CryptoEnv) (now : Nat) (s : Store)
    (h : s.securityMetadata = none) :
    (performSecurityBootCheck env now s).1 = s.passwordInfo.isNone ∧
    ((performSecurityBootCheck env now s).2).securityMetadata =
      some ⟨(createSecurityChecksum env now s).1, now, 1, 1⟩ := by
  cases hp : s.passwordInfo <;>
    simp [performSecurityBootCheck, updateSecurityMetadata, h, hp]

/-- C6 witness: on a fresh store the boot check succeeds and initializes the
metadata. -/
theorem C6_witness : (performSecurityBootCheck toyEnv 7 emptyStore).1 = true := by
  have h := C6_amended_firstBoot toyEnv 7 emptyStore rfl
  simpa using h.1

/-! ### C3: lockout behavior of the rate limiter -/

theorem track_fresh (t : Nat) (s : Store) (h1 : s.failedAttempts = none)
    (h2 : s.failedAttemptsBackup = none) :
    trackEnhancedFailedLogin t s = ((false, 0), writeAttempts ⟨1, t, none, [t]⟩ s) := by
  simp [trackEnhancedFailedLogin, h1, h2, lockActive]

theorem track_locked (t : Nat) (s : Store) (a : EnhancedFailedLoginAttempts)
    (ha : s.failedAttempts = some a) (hlock : lockActive t a = true) :
    trackEnhancedFailedLogin t s =
      ((true, (a.lockedUntil.getD 0 - t + 999) / 1000), s) := by
  simp [trackEnhancedFailedLogin, ha, hlock]

theorem track_step (t : Nat) (s : Store) (a : EnhancedFailedLoginAttempts)
    (ha : s.failedAttempts = some a)
    (hlock : lockActive t a = false)
    (hidle : ¬ t - a.lastAttempt > 30 * 60 * 1000)
    (hhist : ¬ a.attemptHistory.length + 1 > 10) :
    trackEnhancedFailedLogin t s =
      if a.count + 1 ≥ 5 then
        ((true, 15 * 60),
          { writeAttempts ⟨a.count + 1, t, some (t + 15 * 60 * 1000), a.attemptHistory ++ [t]⟩ s with
              lockoutBackup := some (t + 15 * 60 * 1000) })
      else
        ((false, 0), writeAttempts ⟨a.count + 1, t, a.lockedUntil, a.attemptHistory ++ [t]⟩ s) := by
  simp [trackEnhancedFailedLogin, ha, hlock, hidle, hhist]

theorem track_reset (t : Nat) (s : Store) (a : EnhancedFailedLoginAttempts)
    (ha : s.failedAttempts = some a)
    (hlock : lockActive t a = false)
    (hidle : t - a.lastAttempt > 30 * 60 * 1000) :
    trackEnhancedFailedLogin t s = ((false, 0), writeAttempts ⟨1, t, a.lockedUntil, [t]⟩ s) := by
  simp [trackEnhancedFailedLogin, ha, hlock, hidle]

/-- C3 counterexample: after five failed attempts at times 0..4 the store is
locked until `4 + 15min`; at exactly that instant the lockout window has
elapsed, yet the next recorded attempt is locked again (count is 6 ≥ 5 and a
fresh 15-minute lock starts) instead of being processed normally. -/
theorem C3_counterexample :
    (recordFailures [0, 1, 2, 3, 4] emptyStore).failedAttempts =
      some ⟨5, 4, some (4 + 15 * 60 * 1000), [0, 1, 2, 3, 4]⟩ ∧
    (trackEnhancedFailedLogin (4 + 15 * 60 * 1000)
      (recordFailures [0, 1, 2, 3, 4] emptyStore)).1 = (true, 15 * 60) := by
  exact ⟨by decide, by decide⟩

/-- Behavior of further attempts against a record locked at count 5. -/
theorem postLock_behavior (S : Store) (t5 : Nat) (hist : List Nat)
    (hS : S.failedAttempts = some ⟨5, t5, some (t5 + 15 * 60 * 1000), hist⟩)
    (hlen : hist.length ≤ 9) :
    (∀ t6, t5 ≤ t6 → t6 < t5 + 15 * 60 * 1000 →
      (trackEnhancedFailedLogin t6 S).1 =
        (true, (t5 + 15 * 60 * 1000 - t6 + 999) / 1000)) ∧
    (∀ t7, t5 + 15 * 60 * 1000 ≤ t7 → t7 - t5 ≤ 30 * 60 * 1000 →
      (trackEnhancedFailedLogin t7 S).1 = (true, 15 * 60)) ∧
    (∀ t8, t8 - t5 > 30 * 60 * 1000 →
      (trackEnhancedFailedLogin t8 S).1 = (false, 0)) := by
  refine ⟨?_, ?_, ?_⟩
  · intro t6 h6a h6b
    have h := track_locked t6 S ⟨5, t5, some (t5 + 15 * 60 * 1000), hist⟩ hS
      (by simp [lockActive]; omega)
    rw [h]
    rfl
  · intro t7 h7a h7b
    have h := track_step t7 S ⟨5, t5, some (t5 + 15 * 60 * 1000), hist⟩ hS
      (by simp [lockActive]; omega) (by simp; omega) (by simp; omega)
    rw [if_pos (by simp)] at h
    rw [h]
  · intro t8 h8
    have h := track_reset t8 S ⟨5, t5, some (t5 + 15 * 60 * 1000), hist⟩ hS
      (by simp [lockActive]; omega) (by simpa using h8)
    rw [h]

/-- C3 (amended): from a fresh rate-limit state, five failed attempts
recorded within 30 minutes leave a record of count 5 locked for 15 minutes,
and the 6th attempt during the lockout window returns the locked result with
`waitTime = ceil((lockEnd - now)/1000)` (900 seconds at the moment the lock
is set); once the 15-minute lockout has elapsed the next attempt is *not*
processed normally: as long as the last counted attempt is at most 30
minutes old the attempt immediately re-locks for another 15 minutes (count
is not reset), and only an attempt made more than 30 minutes after the last
counted one is processed normally (not locked). -/
theorem C3_amended_lockout (s0 : Store) (t1 t2 t3 t4 t5 : Nat)
    (hf1 : s0.failedAttempts = none) (hf2 : s0.failedAttemptsBackup = none)
    (h12 : t1 ≤ t2) (h23 : t2 ≤ t3) (h34 : t3 ≤ t4) (h45 : t4 ≤ t5)
    (hspan : t5 - t1 ≤ 30 * 60 * 1000) :
    ∃ s5 : Store,
      recordFailures [t1, t2, t3, t4, t5] s0 = s5 ∧
      s5.failedAttempts = some ⟨5, t5, some (t5 + 15 * 60 * 1000), [t1, t2, t3, t4, t5]⟩ ∧
      (∀ t6, t5 ≤ t6 → t6 < t5 + 15 * 60 * 1000 →
        (trackEnhancedFailedLogin t6 s5).1 =
          (true, (t5 + 15 * 60 * 1000 - t6 + 999) / 1000)) ∧
      (∀ t7, t5 + 15 * 60 * 1000 ≤ t7 → t7 - t5 ≤ 30 * 60 * 1000 →
        (trackEnhancedFailedLogin t7 s5).1 = (true, 15 * 60)) ∧
      (∀ t8, t8 - t5 > 30 * 60 * 1000 →
        (trackEnhancedFailedLogin t8 s5).1 = (false, 0)) := by
  have e1 := track_fresh t1 s0 hf1 hf2
  have e2 := track_step t2 (writeAttempts ⟨1, t1, none, [t1]⟩ s0) ⟨1, t1, none, [t1]⟩
    rfl rfl (by simp; omega) (by simp)
  rw [if_neg (by simp)] at e2
  dsimp only at e2
  have e3 := track_step t3 (writeAttempts ⟨2, t2, none, [t1] ++ [t2]⟩
      (writeAttempts ⟨1, t1, none, [t1]⟩ s0)) ⟨2, t2, none, [t1] ++ [t2]⟩
    rfl rfl (by simp; omega) (by simp)
  rw [if_neg (by simp)] at e3
  dsimp only at e3
  have e4 := track_step t4 (writeAttempts ⟨3, t3, none, ([t1] ++ [t2]) ++ [t3]⟩
      (writeAttempts ⟨2, t2, none, [t1] ++ [t2]⟩ (writeAttempts ⟨1, t1, none, [t1]⟩ s0)))
    ⟨3, t3, none, ([t1] ++ [t2]) ++ [t3]⟩ rfl rfl (by simp; omega) (by simp)
  rw [if_neg (by simp)] at e4
  dsimp only at e4
  have e5 := track_step t5 (writeAttempts ⟨4, t4, none, (([t1] ++ [t2]) ++ [t3]) ++ [t4]⟩
      (writeAttempts ⟨3, t3, none, ([t1] ++ [t2]) ++ [t3]⟩
        (writeAttempts ⟨2, t2, none, [t1] ++ [t2]⟩ (writeAttempts ⟨1, t1, none, [t1]⟩ s0))))
    ⟨4, t4, none, (([t1] ++ [t2]) ++ [t3]) ++ [t4]⟩ rfl rfl (by simp; omega) (by simp)
  rw [if_pos (by simp)] at e5
  dsimp only at e5
  have hrec : recordFailures [t1, t2, t3, t4, t5] s0 =
      { writeAttempts ⟨5, t5, some (t5 + 15 * 60 * 1000),
          ((([t1] ++ [t2]) ++ [t3]) ++ [t4]) ++ [t5]⟩
          (writeAttempts ⟨4, t4, none, (([t1] ++ [t2]) ++ [t3]) ++ [t4]⟩
            (writeAttempts ⟨3, t3, none, ([t1] ++ [t2]) ++ [t3]⟩
              (writeAttempts ⟨2, t2, none, [t1] ++ [t2]⟩
                (writeAttempts ⟨1, t1, none, [t1]⟩ s0)))) with
          lockoutBackup := some (t5 + 15 * 60 * 1000) } := by
    unfold recordFailures
    simp only [List.foldl_cons, List.foldl_nil]
    rw [e1]
    dsimp only
    rw [e2]
    dsimp only
    rw [e3]
    dsimp only
    rw [e4]
    dsimp only
    rw [e5]
  have hfa : (recordFailures [t1, t2, t3, t4, t5] s0).failedAttempts =
      some ⟨5, t5, some (t5 + 15 * 60 * 1000), [t1, t2, t3, t4, t5]⟩ := by
    rw [hrec]
    simp [writeAttempts]
  have hpost := postLock_behavior (recordFailures [t1, t2, t3, t4, t5] s0) t5
    [t1, t2, t3, t4, t5] hfa (by simp)
  exact ⟨recordFailures [t1, t2, t3, t4, t5] s0, rfl, hfa, hpost.1, hpost.2.1, hpost.2.2⟩

/-- C3 witness: the concrete five-failure scenario at times 0..4, with the
6th attempt at time 4 still inside the lockout window. -/
theorem C3_witness :
    ∃ s5 : Store, recordFailures [0, 1, 2, 3, 4] emptyStore = s5 ∧
      (trackEnhancedFailedLogin 4 s5).1 = (true, 900) := by
  obtain ⟨s5, h1, _, h3, _, _⟩ := C3_amended_lockout emptyStore 0 1 2 3 4 rfl rfl
    (by omega) (by omega) (by omega) (by omega) (by omega)
  refine ⟨s5, h1, ?_⟩
  have := h3 4 (by omega) (by omega)
  simpa using this

/-! ### C4: encrypt/decrypt round trip -/

/-- C4: under the standard idealization of the external primitives (base64
decoding inverts encoding on this blob, AES-GCM decryption inverts
encryption under the same key, UTF-8 decoding inverts encoding of the
plaintext, and AES-GCM rejects the ciphertext under the key derived from a
different password), `decryptData (encryptData text pw) pw` returns `text`,
and decrypting with a different password `pw2` fails: the framing code
stores `salt(16) || iv(12) || ciphertext` and splits it back correctly. -/
theorem C4_roundtrip (env : CryptoEnv) (salt iv : List Nat) (text pw pw2 : String)
    (ct : List Nat)
    (hsalt : salt.length = 16) (hiv : iv.length = 12)
    (hct : env.aesEncrypt (env.pbkdf2 (env.utf8encode pw) salt) iv
      (env.utf8encode text) = some ct)
    (hb64 : env.b64decode (env.b64encode (salt ++ iv ++ ct)) = salt ++ iv ++ ct)
    (haes : env.aesDecrypt (env.pbkdf2 (env.utf8encode pw) salt) iv ct =
      some (env.utf8encode text))
    (hutf : env.utf8decode (env.utf8encode text) = text)
    (_hne : pw2 ≠ pw)
    (hreject : env.aesDecrypt (env.pbkdf2 (env.utf8encode pw2) salt) iv ct = none) :
    encryptData env salt iv text pw = some (env.b64encode (salt ++ iv ++ ct)) ∧
    decryptData env (env.b64encode (salt ++ iv ++ ct)) pw = some text ∧
    decryptData env (env.b64encode (salt ++ iv ++ ct)) pw2 = none := by
  have htake : (salt ++ iv ++ ct).take 16 = salt := by
    rw [List.append_assoc]
    exact List.take_left' hsalt
  have hdrop : (salt ++ iv ++ ct).drop 16 = iv ++ ct := by
    rw [List.append_assoc]
    exact List.drop_left' hsalt
  have htake2 : ((salt ++ iv ++ ct).drop 16).take 12 = iv := by
    rw [hdrop]
    exact List.take_left' hiv
  have hdrop28 : (salt ++ iv ++ ct).drop 28 = ct := by
    have h1 : (salt ++ iv ++ ct).drop 28 = ((salt ++ iv ++ ct).drop 16).drop 12 := by
      rw [List.drop_drop]
    rw [h1, hdrop]
    exact List.drop_left' hiv
  refine ⟨?_, ?_, ?_⟩
  · simp [encryptData, hct]
  · simp only [decryptData]
    rw [hb64, htake, htake2, hdrop28, haes]
    simp [hutf]
  · simp only [decryptData]
    rw [hb64, htake, htake2, hdrop28, hreject]
    rfl

/-- Salt bytes for the C4 witness. -/
def c4salt : List Nat := List.replicate 16 0

/-- IV bytes for the C4 witness. -/
def c4iv : List Nat := List.replicate 12 1

/-- The C4 witness ciphertext produced by `toyEnv`. -/
def c4ct : List Nat :=
  toyEnv.pbkdf2 (toyEnv.utf8encode "ab") c4salt ++ toyEnv.utf8encode "x"

/-- C4 witness: concrete round trip and wrong-password rejection. -/
theorem C4_witness :
    decryptData toyEnv (toyEnv.b64encode (c4salt ++ c4iv ++ c4ct)) "ab" = some "x" ∧
    decryptData toyEnv (toyEnv.b64encode (c4salt ++ c4iv ++ c4ct)) "cd" = none := by
  have h := C4_roundtrip toyEnv c4salt c4iv "x" "ab" "cd" c4ct (by decide) (by decide)
    (by decide) (by decide) (by decide) (by decide) (by decide) (by decide)
  exact ⟨h.2.1, h.2.2⟩

/-! ### C7: password change -/

/-- The credential record `handleChangePassword` builds for the new password. -/
def newCredRecord (env : CryptoEnv) (newPassword : String) (saltNew : List Nat) :
    StoredPasswordInfo :=
  ⟨env.pbkdf2hex newPassword saltNew, bufferToHex saltNew⟩

/-- The device id in scope when `storeEnhancedIntegrityData` runs inside
`handleChangePassword`. -/
def changePwDeviceId (env : CryptoEnv) (s : Store) (p : StoredPasswordInfo)
    (newPassword : String) (saltNew : List Nat) : String :=
  (generateDeviceId env.freshUUID
    ({ (verifyEnhancedIntegrity env s p).2 with
        passwordInfo := some (newCredRecord env newPassword saltNew) })).1

/-- C7: `handleChangePassword` verifies the current password first: with a
valid-length new password and intact integrity data, a wrong current
password fails with the incorrect-password error and leaves the stored
credential record unchanged; with the right current password it stores the
new credential record, regenerates both integrity copies for it, and clears
the session challenge and the session-authenticated flag, after which the
remembered-session check `verifyAuthenticationState` fails. -/
theorem C7_changePassword (env : CryptoEnv) (now : Nat) (saltNew : List Nat)
    (currentPassword newPassword : String) (p : StoredPasswordInfo) (s : Store)
    (hlen : ¬ newPassword.length < 8)
    (hintegrity : (verifyEnhancedIntegrity env s p).1 = true) :
    (env.pbkdf2hex currentPassword (hexToBuffer p.salt) ≠ p.hash →
      handleChangePassword env now saltNew currentPassword newPassword (some p) s =
        (some "Current password is incorrect.", (verifyEnhancedIntegrity env s p).2) ∧
      ((verifyEnhancedIntegrity env s p).2).passwordInfo = s.passwordInfo) ∧
    (env.pbkdf2hex currentPassword (hexToBuffer p.salt) = p.hash →
      ∃ final : Store, ∃ deviceId : String,
        handleChangePassword env now saltNew currentPassword newPassword (some p) s =
          (none, final) ∧
        final.passwordInfo =
          some ⟨env.pbkdf2hex newPassword saltNew, bufferToHex saltNew⟩ ∧
        final.integrity = some
          ⟨(createIntegrityHashes env deviceId
              ⟨env.pbkdf2hex newPassword saltNew, bufferToHex saltNew⟩).1,
            (createIntegrityHashes env deviceId
              ⟨env.pbkdf2hex newPassword saltNew, bufferToHex saltNew⟩).2,
            now, deviceId, 1⟩ ∧
        final.integrityBackup = some
          ⟨(createIntegrityHashes env deviceId
              ⟨env.pbkdf2hex newPassword saltNew, bufferToHex saltNew⟩).1,
            (createIntegrityHashes env deviceId
              ⟨env.pbkdf2hex newPassword saltNew, bufferToHex saltNew⟩).2,
            now + 1, deviceId, 1⟩ ∧
        final.sessionAuth = none ∧
        final.sessionChallenge = none ∧
        (∀ t : Nat, ∀ q : StoredPasswordInfo,
          (verifyAuthenticationState env t final q).1 = false)) := by
  constructor
  · intro hne
    have hbeq : (env.pbkdf2hex currentPassword (hexToBuffer p.salt) == p.hash) = false := by
      simpa using hne
    constructor
    · simp [handleChangePassword, hlen, hintegrity, hbeq]
    · exact verifyEnhancedIntegrity_passwordInfo env s p
  · intro heq
    have hbeq : (env.pbkdf2hex currentPassword (hexToBuffer p.salt) == p.hash) = true := by
      simpa using heq
    refine ⟨(handleChangePassword env now saltNew currentPassword newPassword (some p) s).2,
      changePwDeviceId env s p newPassword saltNew, ?_, ?_, ?_, ?_, ?_, ?_, ?_⟩
    · simp [handleChangePassword, hlen, hintegrity, hbeq]
    · simp [handleChangePassword, hlen, hintegrity, hbeq, lockApplication,
        storeEnhancedIntegrityData, updateSecurityMetadata_passwordInfo, generateDeviceId_snd]
    · simp [handleChangePassword, hlen, hintegrity, hbeq, lockApplication,
        storeEnhancedIntegrityData, updateSecurityMetadata_integrity,
        changePwDeviceId, newCredRecord]
    · simp [handleChangePassword, hlen, hintegrity, hbeq, lockApplication,
        storeEnhancedIntegrityData, updateSecurityMetadata_integrityBackup,
        changePwDeviceId, newCredRecord]
    · simp [handleChangePassword, hlen, hintegrity, hbeq, lockApplication]
    · simp [handleChangePassword, hlen, hintegrity, hbeq, lockApplication]
    · intro t q
      apply verifyAuthenticationState_of_sessionAuth_none
      simp [handleChangePassword, hlen, hintegrity, hbeq, lockApplication]

/-- Credential record for the C7 witness. -/
def c7P : StoredPasswordInfo := ⟨"correct", "aa"⟩

/-- A valid integrity copy for `c7P` under `toyEnv` and device id `dev`. -/
def c7Integrity : EnhancedIntegrityData :=
  ⟨toyEnv.sha256 (toyEnv.utf8encode (serializePasswordInfo c7P)),
    toyEnv.sha512 (toyEnv.utf8encode (serializePasswordInfo c7P ++ "dev")), 0, "dev", 1⟩

/-- Store for the C7 witness: valid credential and integrity data plus an
active remembered session. -/
def c7Store : Store :=
  { emptyStore with
      passwordInfo := some c7P
      integrity := some c7Integrity
      integrityBackup := some c7Integrity
      deviceId := some "dev"
      sessionAuth := some true
      sessionChallenge := some ⟨"c", "r", 0, "n"⟩ }

/-- C7 witness: a successful password change clears the session state. -/
theorem C7_witness :
    ∃ final : Store, ∃ deviceId : String,
      handleChangePassword toyEnv 3 [1, 2] "correct" "newpassword" (some c7P) c7Store =
        (none, final) ∧
      final.passwordInfo = some ⟨toyEnv.pbkdf2hex "newpassword" [1, 2], bufferToHex [1, 2]⟩ ∧
      final.sessionAuth = none ∧
      final.sessionChallenge = none := by
  obtain ⟨final, deviceId, h1, h2, h3, h4, h5, h6, h7⟩ :=
    (C7_changePassword toyEnv 3 [1, 2] "correct" "newpassword" c7P c7Store (by decide)
      (by decide)).2 (by decide)
  exact ⟨final, deviceId, h1, h2, h5, h6⟩

/-! ### C8: migration to encrypted storage fails closed without a credential -/

/-- C8: when encryption is not already enabled and no credential record
exists, `migrateToEncryptedStorage` performs no conversion and reports
failure: it returns `false` (the `NoCredentialError` outcome of the spec's
taxonomy) and leaves the whole store — in particular the folders slot and
the encryption-enabled flag — unchanged. -/
theorem C8_migrate_fails_closed (env : CryptoEnv) (salt iv : List Nat) (s : Store)
    (henc : isEncryptionEnabled s = false) (hp : s.passwordInfo = none) :
    migrateToEncryptedStorage env salt iv s = (false, s) := by
  simp [migrateToEncryptedStorage, henc, hp]

/-- C8 witness: migrating an empty store fails and changes nothing. -/
theorem C8_witness : migrateToEncryptedStorage toyEnv [] [] emptyStore = (false, emptyStore) :=
  C8_migrate_fails_closed toyEnv [] [] emptyStore rfl rfl

/-! ### C9: plaintext fallback on encryption failure -/

/-- C9: with encryption enabled and a credential present, if encrypting the
folder payload fails, `storeFoldersSecurely` falls back to writing the
folders in plaintext to the folders key instead of propagating the error. -/
theorem C9_storeFolders_fail_open (env : CryptoEnv) (salt iv : List Nat)
    (folders : List Folder) (s : Store) (p : StoredPasswordInfo)
    (henabled : s.encryptionEnabled = some true)
    (hp : s.passwordInfo = some p)
    (hfail : env.aesEncrypt (env.pbkdf2 (env.utf8encode (substringTo p.hash 32)) salt) iv
      (env.utf8encode (serializeFoldersVal (.plain folders))) = none) :
    storeFoldersSecurely env salt iv folders s = { s with folders := some (.plain folders) } := by
  simp [storeFoldersSecurely, isEncryptionEnabled, henabled, hp, encryptFolders,
    getCurrentPassword, encryptData, hfail]

/-- Store for the C9 witness: encryption on, credential present. -/
def c9Store : Store :=
  { emptyStore with encryptionEnabled := some true, passwordInfo := some ⟨"h", "s"⟩ }

/-- C9 witness: with the failing provider the folders end up in plaintext. -/
theorem C9_witness :
    storeFoldersSecurely toyEnvFail [] [] [] c9Store =
      { c9Store with folders := some (.plain []) } :=
  C9_storeFolders_fail_open toyEnvFail [] [] [] c9Store ⟨"h", "s"⟩ rfl rfl rfl

/-! ### C10: rate limiting fails open on storage errors -/

/-- C10: if any storage operation inside `trackEnhancedFailedLogin` throws,
the catch clause returns `{ isLocked: false, waitTime: 0 }`; in particular a
store whose primary read fails yields the unlocked result regardless of the
persisted record — even one that says the account is currently locked — so
rate limiting fails open under storage errors. -/
theorem C10_track_fails_open (now : Nat) :
    (∀ st : FallibleRateStore, ∀ e : Unit,
      trackFailedLoginBody now st = .error e →
        trackFailedLoginCaught now st = (false, 0)) ∧
    (∀ s : Store, trackFailedLoginCaught now (fallibleOf s true) = (false, 0)) := by
  constructor
  · intro st e h
    unfold trackFailedLoginCaught
    rw [h]
  · intro s
    unfold trackFailedLoginCaught trackFailedLoginBody
    simp [fallibleOf, Bind.bind, Except.bind]

/-- Store whose persisted rate-limit record says the account is locked until
time 1000000. -/
def c10Store : Store :=
  { emptyStore with failedAttempts := some ⟨5, 0, some 1000000, [0]⟩ }

/-- C10 witness: with the locked record behind a failing primary read at a
time inside the lockout window, tracking still reports unlocked. -/
theorem C10_witness :
    c10Store.failedAttempts = some ⟨5, 0, some 1000000, [0]⟩ ∧
    trackFailedLoginCaught 5 (fallibleOf c10Store true) = (false, 0) :=
  ⟨rfl, (C10_track_fails_open 5).2 c10Store⟩

end XVault
